import Mathlib

/-!
Verification of the order-state store and totals calculator of the Foodex
fast-food billing application (Next.js/TypeScript).  The embedding below
translates the TypeScript in `src/context/OrderContext.tsx`,
`src/lib/utils.ts` and `src/lib/menuItems.ts` into Lean: prices and money
amounts become exact rationals, the reducer's `switch` on `action.type`
becomes a match on a tagged action type whose `type` string is recovered by
`Action.type`, and the `throw` in the reducer's default branch becomes the
`Except.error` constructor.
-/

namespace Foodex

/-- A catalog entry, as in `src/lib/menuItems.ts`:
`{ id, name, price, category }`.  An order line item is structurally
identical (no quantity field). -/
structure MenuItem where
  id : Nat
  name : String
  price : ℚ
  category : String
deriving DecidableEq

/-- The customer record of the order state:
`customer: { name: "", phone: "", address: "" }`. -/
structure CustomerDetails where
  name : String
  phone : String
  address : String
deriving DecidableEq

/-- A partial customer record, the `action.payload` of `UPDATE_CUSTOMER`:
each field is present (`some`) or absent (`none`), mirroring key presence
in the spread `{ ...state.customer, ...action.payload }`. -/
structure CustomerUpdate where
  name : Option String
  phone : Option String
  address : Option String
deriving DecidableEq

/-- The order state held by the context:
`{ items, customer, discount, deliveryCharge }`. -/
structure OrderState where
  items : List MenuItem
  customer : CustomerDetails
  discount : ℚ
  deliveryCharge : ℚ
deriving DecidableEq

/-- `initialState` from `src/context/OrderContext.tsx`. -/
def initialState : OrderState :=
  { items := []
    customer := { name := "", phone := "", address := "" }
    discount := 0
    deliveryCharge := 0 }

/-- The actions dispatched against the store.  The three dispatched shapes
are `{type:"ADD_ITEM", item}`, `{type:"REMOVE_ITEM", id}` and
`{type:"UPDATE_CUSTOMER", payload}`; `other t` stands for any action whose
`type` string `t` is none of the three recognized ones. -/
inductive Action where
  | addItem (item : MenuItem)
  | removeItem (id : Nat)
  | updateCustomer (payload : CustomerUpdate)
  | other (t : String)
deriving DecidableEq

/-- The `action.type` string of an action. -/
def Action.type : Action → String
  | .addItem _ => "ADD_ITEM"
  | .removeItem _ => "REMOVE_ITEM"
  | .updateCustomer _ => "UPDATE_CUSTOMER"
  | .other t => t

/-- The spread `{ ...state.customer, ...action.payload }`: a field present
in the payload overrides, an absent field keeps its previous value. -/
def mergeCustomer (c : CustomerDetails) (p : CustomerUpdate) : CustomerDetails :=
  { name := p.name.getD c.name
    phone := p.phone.getD c.phone
    address := p.address.getD c.address }

/-- `orderReducer` from `src/context/OrderContext.tsx`.  The default branch
throws `Unhandled action type`, modelled as `Except.error`; the three
recognized branches return the next state. -/
def orderReducer (state : OrderState) (action : Action) : Except String OrderState :=
  match action with
  | .addItem item => .ok { state with items := state.items ++ [item] }
  | .removeItem id => .ok { state with items := state.items.filter (fun item => item.id != id) }
  | .updateCustomer payload => .ok { state with customer := mergeCustomer state.customer payload }
  | .other t => .error ("Unhandled action type: " ++ t)

/-- The totals record returned by `calculateTotals`. -/
structure Totals where
  subtotal : ℚ
  total : ℚ
deriving DecidableEq

/-- `calculateTotals` from `src/lib/utils.ts`:
`subtotal = items.reduce((sum, item) => sum + item.price, 0)` and
`total = subtotal - discount + deliveryCharge`. -/
def calculateTotals (items : List MenuItem) (discount : ℚ) (deliveryCharge : ℚ) : Totals :=
  let subtotal := items.foldl (fun sum item => sum + item.price) 0
  { subtotal := subtotal, total := subtotal - discount + deliveryCharge }

/-- The static catalog from `src/lib/menuItems.ts`. -/
def menuItems : List MenuItem :=
  [ { id := 1, name := "Burger", price := 599/100, category := "Burgers" }
  , { id := 2, name := "Pizza", price := 899/100, category := "Pizza" }
  , { id := 3, name := "Fries", price := 299/100, category := "Sides" }
  , { id := 4, name := "Soda", price := 199/100, category := "Drinks" } ]

lemma foldl_add_price (l : List MenuItem) (a : ℚ) :
    l.foldl (fun sum item => sum + item.price) a = a + (l.map MenuItem.price).sum := by
  induction l generalizing a with
  | nil => simp
  | cons m rest ih => simp [List.foldl_cons, ih, add_assoc]

/-- Claim C1: `calculateTotals` returns `subtotal` equal to the sum of the
unit prices of the line items (0 for an empty sequence) and
`total = subtotal - discount + deliveryCharge`; in particular
`calculateTotals [] 0 0 = {subtotal := 0, total := 0}` and a single item of
price 10 with discount 2 and delivery charge 1.5 yields subtotal 10 and
total 9.5. -/
theorem calculateTotals_spec :
    (∀ (items : List MenuItem) (d c : ℚ),
        (calculateTotals items d c).subtotal = (items.map MenuItem.price).sum ∧
        (calculateTotals items d c).total = (items.map MenuItem.price).sum - d + c) ∧
    calculateTotals [] 0 0 = { subtotal := 0, total := 0 } ∧
    calculateTotals [{ id := 1, name := "Item", price := 10, category := "Cat" }] 2 (3/2)
      = { subtotal := 10, total := 19/2 } := by
  refine ⟨fun items d c => ?_, ?_, ?_⟩
  · simp [calculateTotals, foldl_add_price]
  · simp [calculateTotals, Totals.mk.injEq]
  · norm_num [calculateTotals, Totals.mk.injEq]

/-- A line item used by several concrete checks below: the Burger catalog
entry. -/
def burger : MenuItem :=
  { id := 1, name := "Burger", price := 599/100, category := "Burgers" }

/-- A concrete state holding one Burger line item and a partly filled
customer record. -/
def exState : OrderState :=
  { items := [burger]
    customer := { name := "A", phone := "1", address := "" }
    discount := 0
    deliveryCharge := 0 }

/-- The partial customer update used in the spec example: only the address
field is present. -/
def pX : CustomerUpdate := { name := none, phone := none, address := some "X" }

/-- Claim C3: removing an identifier that matches no line item returns the
state unchanged and raises no error. -/
theorem removeItem_absent_noop (s : OrderState) (i : Nat)
    (h : s.items.all (fun item => item.id != i) = true) :
    orderReducer s (Action.removeItem i) = .ok s := by
  have hf : s.items.filter (fun item => item.id != i) = s.items :=
    List.filter_eq_self.mpr (by simpa [List.all_eq_true] using h)
  simp [orderReducer, hf]

theorem removeItem_absent_noop_witness :
    (exState.items.all (fun item => item.id != 2) = true) ∧
    orderReducer exState (Action.removeItem 2) = .ok exState :=
  ⟨by decide, removeItem_absent_noop exState 2 (by decide)⟩

/-- Claim C4: an action whose `type` string is none of the three recognized
kinds makes the reducer throw `Unhandled action type` instead of silently
returning or accepting the state. -/
theorem orderReducer_unknown_action_errors (s : OrderState) (a : Action)
    (h : a.type ∉ ["ADD_ITEM", "REMOVE_ITEM", "UPDATE_CUSTOMER"]) :
    orderReducer s a = .error ("Unhandled action type: " ++ a.type) := by
  cases a with
  | addItem m => simp [Action.type] at h
  | removeItem i => simp [Action.type] at h
  | updateCustomer p => simp [Action.type] at h
  | other t => rfl

theorem orderReducer_unknown_action_errors_witness :
    (Action.type (Action.other ("CLEAR_ORDER")) ∉ ["ADD_ITEM", "REMOVE_ITEM", "UPDATE_CUSTOMER"]) ∧
    orderReducer initialState (Action.other ("CLEAR_ORDER"))
      = .error ("Unhandled action type: " ++ Action.type (Action.other ("CLEAR_ORDER"))) :=
  ⟨by decide, orderReducer_unknown_action_errors initialState (Action.other ("CLEAR_ORDER")) (by decide)⟩

/-- Claim C5: the update-customer operation merges the present fields of the
partial record into the customer and leaves every absent field at its
previous value. -/
theorem updateCustomer_merge (s : OrderState) (p : CustomerUpdate) :
    orderReducer s (Action.updateCustomer p) = .ok { s with customer := mergeCustomer s.customer p } ∧
    (p.name = none → (mergeCustomer s.customer p).name = s.customer.name) ∧
    (p.phone = none → (mergeCustomer s.customer p).phone = s.customer.phone) ∧
    (p.address = none → (mergeCustomer s.customer p).address = s.customer.address) ∧
    (∀ v, p.name = some v → (mergeCustomer s.customer p).name = v) ∧
    (∀ v, p.phone = some v → (mergeCustomer s.customer p).phone = v) ∧
    (∀ v, p.address = some v → (mergeCustomer s.customer p).address = v) := by
  refine ⟨rfl, fun h => ?_, fun h => ?_, fun h => ?_,
    fun v h => ?_, fun v h => ?_, fun v h => ?_⟩ <;> simp [mergeCustomer, h]

theorem updateCustomer_merge_witness :
    (mergeCustomer exState.customer pX).name = "A" ∧
    (mergeCustomer exState.customer pX).phone = "1" ∧
    (mergeCustomer exState.customer pX).address = "X" :=
  ⟨(updateCustomer_merge exState pX).2.1 rfl,
   (updateCustomer_merge exState pX).2.2.1 rfl,
   (updateCustomer_merge exState pX).2.2.2.2.2.2 "X" rfl⟩

/-- Claim C6: the add-item operation appends one new line item to the end of
the sequence and always succeeds; adding the same catalog item twice yields
two independent line items, each contributing its full unit price to the
subtotal. -/
theorem addItem_appends (s : OrderState) (m : MenuItem) :
    orderReducer s (Action.addItem m) = .ok { s with items := s.items ++ [m] } ∧
    orderReducer { s with items := s.items ++ [m] } (Action.addItem m)
      = .ok { s with items := s.items ++ [m, m] } ∧
    (calculateTotals (s.items ++ [m, m]) 0 0).subtotal
      = (calculateTotals s.items 0 0).subtotal + m.price + m.price := by
  refine ⟨rfl, ?_, ?_⟩
  · simp [orderReducer]
  · simp [calculateTotals, foldl_add_price]

/-- Claim C7: `calculateTotals` is deterministic: identical item sequences,
discount and delivery charge give identical outputs. -/
theorem calculateTotals_deterministic (items₁ items₂ : List MenuItem) (d₁ d₂ c₁ c₂ : ℚ)
    (h₁ : items₁ = items₂) (h₂ : d₁ = d₂) (h₃ : c₁ = c₂) :
    calculateTotals items₁ d₁ c₁ = calculateTotals items₂ d₂ c₂ := by
  rw [h₁, h₂, h₃]

theorem calculateTotals_deterministic_witness :
    (menuItems = menuItems) ∧ ((2 : ℚ) = 2) ∧ ((3/2 : ℚ) = 3/2) ∧
    calculateTotals menuItems 2 (3/2) = calculateTotals menuItems 2 (3/2) :=
  ⟨rfl, rfl, rfl, calculateTotals_deterministic menuItems menuItems 2 2 (3/2) (3/2) rfl rfl rfl⟩

/-- Claim C9: the remove-item operation deletes every line item whose
identifier matches (none survives), and every line item with a different
identifier is kept, in order and with its multiplicity. -/
theorem removeItem_removes_all_matching (s : OrderState) (i : Nat) :
    ∃ s', orderReducer s (Action.removeItem i) = .ok s' ∧
      (∀ item ∈ s'.items, item.id ≠ i) ∧
      List.Sublist s'.items s.items ∧
      (∀ item : MenuItem, item.id ≠ i → List.count item s'.items = List.count item s.items) := by
  refine ⟨_, rfl, ?_, ?_, ?_⟩
  · intro item hm
    simpa using (List.mem_filter.mp hm).2
  · exact List.filter_sublist _
  · intro item hne
    exact List.count_filter (by simpa using hne)

/-- Claim C10: add-item and remove-item leave the customer, discount and
delivery charge unchanged; update-customer leaves the items, discount and
delivery charge unchanged. -/
theorem reducer_frame_effects (s : OrderState) (m : MenuItem) (i : Nat) (p : CustomerUpdate) :
    (∃ s₁, orderReducer s (Action.addItem m) = .ok s₁ ∧
      s₁.customer = s.customer ∧ s₁.discount = s.discount ∧ s₁.deliveryCharge = s.deliveryCharge) ∧
    (∃ s₂, orderReducer s (Action.removeItem i) = .ok s₂ ∧
      s₂.customer = s.customer ∧ s₂.discount = s.discount ∧ s₂.deliveryCharge = s.deliveryCharge) ∧
    (∃ s₃, orderReducer s (Action.updateCustomer p) = .ok s₃ ∧
      s₃.items = s.items ∧ s₃.discount = s.discount ∧ s₃.deliveryCharge = s.deliveryCharge) :=
  ⟨⟨_, rfl, rfl, rfl, rfl⟩, ⟨_, rfl, rfl, rfl, rfl⟩, ⟨_, rfl, rfl, rfl, rfl⟩⟩

/-- The state after one dispatched action: the reducer's result, or the old
state when the reducer throws (the component catches and logs). -/
def nextState (s : OrderState) (a : Action) : OrderState :=
  match orderReducer s a with
  | .ok next => next
  | .error _ => s

/-- Dispatch a list of actions in order, stopping at the first throw. -/
def dispatchAll (s : OrderState) : List Action → Except String OrderState
  | [] => .ok s
  | a :: rest =>
    match orderReducer s a with
    | .ok next => dispatchAll next rest
    | .error e => .error e

/-- Whether an action is one of the two cart operations (add or remove). -/
def isCartOp : Action → Bool
  | .addItem _ => true
  | .removeItem _ => true
  | _ => false

/-- Number of add operations in a list of actions. -/
def addCount : List Action → Nat
  | [] => 0
  | Action.addItem _ :: rest => addCount rest + 1
  | _ :: rest => addCount rest

/-- The items appended by the add operations, in dispatch order. -/
def addedItems : List Action → List MenuItem
  | [] => []
  | Action.addItem m :: rest => m :: addedItems rest
  | _ :: rest => addedItems rest

/-- Total number of line items deleted by the remove operations of a run: a
remove deletes every line item of the current state whose id matches. -/
def removedItemCount (s : OrderState) : List Action → Nat
  | [] => 0
  | a :: rest =>
    (match a with
     | Action.removeItem i => (s.items.filter (fun item => item.id == i)).length
     | _ => 0) + removedItemCount (nextState s a) rest

/-- Number of remove operations that matched at least one line item of the
current state (the spec's successful removes). -/
def successfulRemoveCount (s : OrderState) : List Action → Nat
  | [] => 0
  | a :: rest =>
    (match a with
     | Action.removeItem i => if s.items.any (fun item => item.id == i) then 1 else 0
     | _ => 0) + successfulRemoveCount (nextState s a) rest

/-- Item-sequence length of a run result (0 when the run threw). -/
def itemsLenOf : Except String OrderState → Nat
  | .ok s => s.items.length
  | .error _ => 0

/-- Add the same item twice, then remove its id once. -/
def cexOps : List Action := [Action.addItem burger, Action.addItem burger, Action.removeItem 1]

/-- Claim C2 counterexample: adding the Burger item twice and then removing
id 1 once is 2 adds and 1 successful remove, yet the resulting sequence is
empty (the remove deletes both duplicates), so its length 0 differs from
adds minus successful removes = 1. -/
theorem orderLength_adds_minus_removes_cex :
    addCount cexOps = 2 ∧
    successfulRemoveCount initialState cexOps = 1 ∧
    itemsLenOf (dispatchAll initialState cexOps) = 0 ∧
    itemsLenOf (dispatchAll initialState cexOps)
      ≠ addCount cexOps - successfulRemoveCount initialState cexOps := by
  refine ⟨by decide, by decide, by decide, by decide⟩

lemma length_filter_pos_add_neg (p : MenuItem → Bool) (l : List MenuItem) :
    (l.filter p).length + (l.filter (fun x => !(p x))).length = l.length := by
  induction l with
  | nil => rfl
  | cons x xs ih => cases hpx : p x <;> simp [List.filter_cons, hpx] <;> omega

lemma dispatchAll_cart_run (ops : List Action) :
    ∀ s : OrderState, ops.all isCartOp = true →
      ∃ s', dispatchAll s ops = .ok s' ∧
        s'.items.length + removedItemCount s ops = s.items.length + addCount ops ∧
        List.Sublist s'.items (s.items ++ addedItems ops) := by
  induction ops with
  | nil =>
    intro s _
    exact ⟨s, rfl, by simp [removedItemCount, addCount], by simp [addedItems]⟩
  | cons a rest ih =>
    intro s hall
    rw [List.all_cons, Bool.and_eq_true] at hall
    obtain ⟨ha, hrest⟩ := hall
    cases a with
    | addItem m =>
      obtain ⟨s', hrun, hlen, hsub⟩ := ih { s with items := s.items ++ [m] } hrest
      refine ⟨s', ?_, ?_, ?_⟩
      · simpa [dispatchAll, orderReducer] using hrun
      · simp only [removedItemCount, nextState, orderReducer, addCount] at hlen ⊢
        simp at hlen
        omega
      · simpa [addedItems, List.append_assoc] using hsub
    | removeItem i =>
      obtain ⟨s', hrun, hlen, hsub⟩ :=
        ih { s with items := s.items.filter (fun item => item.id != i) } hrest
      have hsplit :
          (s.items.filter (fun item => item.id == i)).length
            + (s.items.filter (fun item => item.id != i)).length = s.items.length :=
        length_filter_pos_add_neg (fun item => item.id == i) s.items
      refine ⟨s', ?_, ?_, ?_⟩
      · simpa [dispatchAll, orderReducer] using hrun
      · simp only [removedItemCount, nextState, orderReducer, addCount] at hlen ⊢
        omega
      · refine hsub.trans (List.Sublist.append ?_ (List.Sublist.refl _))
        exact List.filter_sublist _
    | updateCustomer p => simp [isCartOp] at ha
    | other t => simp [isCartOp] at ha

/-- Claim C2 (amended): running any sequence of add and remove operations
from the initial empty state succeeds, the resulting sequence length equals
the number of adds minus the number of line items deleted by the removes
(a remove deletes every current line item with the matching id, so
duplicates can make this exceed the number of successful removes), and the
surviving items are a subsequence of the added items in insertion order. -/
theorem orderLength_adds_minus_removedItems (ops : List Action)
    (h : ops.all isCartOp = true) :
    ∃ s', dispatchAll initialState ops = .ok s' ∧
      s'.items.length = addCount ops - removedItemCount initialState ops ∧
      List.Sublist s'.items (addedItems ops) := by
  obtain ⟨s', hrun, hlen, hsub⟩ := dispatchAll_cart_run ops initialState h
  refine ⟨s', hrun, ?_, ?_⟩
  · rw [show initialState.items.length = 0 from rfl] at hlen
    omega
  · simpa [initialState] using hsub

/-- A short concrete run: one add, one unsuccessful remove. -/
def wOps : List Action := [Action.addItem burger, Action.removeItem 5]

theorem orderLength_adds_minus_removedItems_witness :
    (wOps.all isCartOp = true) ∧
    (∃ s', dispatchAll initialState wOps = .ok s' ∧
      s'.items.length = addCount wOps - removedItemCount initialState wOps ∧
      List.Sublist s'.items (addedItems wOps)) :=
  ⟨by decide, orderLength_adds_minus_removedItems wOps (by decide)⟩

/-- A JavaScript runtime value, restricted to the fragment `calculateTotals`
can meet: `undefined`, `null`, finite numbers, `NaN`, arrays, and item
objects (of which only the `price` property is ever read, `none` standing
for an object without that property). -/
inductive JSVal where
  | jsUndefined
  | jsNull
  | num (q : ℚ)
  | nan
  | arr (elems : List JSVal)
  | obj (price : Option JSVal)

/-- The property access `item.price`: throws on `undefined` and `null`,
yields `undefined` for a value without that property. -/
def jsGetPrice : JSVal → Except String JSVal
  | .jsUndefined => .error ("TypeError: Cannot read properties of undefined")
  | .jsNull => .error ("TypeError: Cannot read properties of null")
  | .obj p => .ok (p.getD .jsUndefined)
  | _ => .ok .jsUndefined

/-- JS ToNumber on the values of the fragment: `null` coerces to 0,
`undefined` and `NaN` are not numbers; arrays and objects (which in full JS
coerce through strings, never to a finite number for the values reachable
here) also yield no number. -/
def jsToNumber : JSVal → Option ℚ
  | .num q => some q
  | .jsNull => some 0
  | _ => none

/-- JS numeric `+` (no string operand occurs in this fragment): `NaN` when
either side has no numeric value. -/
def jsAdd (a b : JSVal) : JSVal :=
  match jsToNumber a, jsToNumber b with
  | some x, some y => .num (x + y)
  | _, _ => .nan

/-- JS numeric `-`. -/
def jsSub (a b : JSVal) : JSVal :=
  match jsToNumber a, jsToNumber b with
  | some x, some y => .num (x - y)
  | _, _ => .nan

/-- One step of the reduce callback `(sum, item) => sum + item.price`. -/
def jsReduceStep (sum item : JSVal) : Except String JSVal :=
  match jsGetPrice item with
  | .ok p => .ok (jsAdd sum p)
  | .error e => .error e

/-- The left fold performed by `Array.prototype.reduce` with that callback. -/
def jsFoldSum (sum : JSVal) : List JSVal → Except String JSVal
  | [] => .ok sum
  | item :: rest =>
    match jsReduceStep sum item with
    | .ok next => jsFoldSum next rest
    | .error e => .error e

/-- `items.reduce((sum, item) => sum + item.price, 0)`: a TypeError when
`items` is not an array. -/
def jsReduceSumPrice : JSVal → Except String JSVal
  | .arr elems => jsFoldSum (JSVal.num 0) elems
  | _ => .error ("TypeError: items.reduce is not a function")

/-- `calculateTotals` at the JavaScript level: a default parameter replaces
an argument only when it is `undefined`, then subtotal and total are
computed as in the source. -/
def jsCalculateTotals (items discount deliveryCharge : JSVal) : Except String (JSVal × JSVal) :=
  let items := match items with | .jsUndefined => JSVal.arr [] | v => v
  let discount := match discount with | .jsUndefined => JSVal.num 0 | v => v
  let deliveryCharge := match deliveryCharge with | .jsUndefined => JSVal.num 0 | v => v
  match jsReduceSumPrice items with
  | .ok subtotal => .ok (subtotal, jsAdd (jsSub subtotal discount) deliveryCharge)
  | .error e => .error e

/-- The JS value of a line item as the application passes it: an object
whose `price` property carries the item's price. -/
def encodeItem (m : MenuItem) : JSVal := .obj (some (.num m.price))

/-- An item-list argument: absent (`undefined`) or an array of items. -/
def encodeItems : Option (List MenuItem) → JSVal
  | none => .jsUndefined
  | some l => .arr (l.map encodeItem)

/-- A numeric argument: absent (`undefined`) or a number. -/
def encodeNum : Option ℚ → JSVal
  | none => .jsUndefined
  | some q => .num q

/-- Claim C8 counterexample: a malformed (null) item list is not defaulted;
`calculateTotals(null, 0, 0)` throws a TypeError instead of returning a
result. -/
theorem jsCalculateTotals_null_items_cex :
    jsCalculateTotals JSVal.jsNull (JSVal.num 0) (JSVal.num 0)
      = .error ("TypeError: items.reduce is not a function") := rfl

lemma jsFoldSum_encoded (l : List MenuItem) : ∀ q : ℚ,
    jsFoldSum (JSVal.num q) (l.map encodeItem)
      = .ok (JSVal.num (l.foldl (fun sum item => sum + item.price) q)) := by
  induction l with
  | nil => intro q; rfl
  | cons m rest ih => intro q; exact ih (q + m.price)

/-- Claim C8 (amended): when every argument is either absent or well typed
(the item list an array of items, the discount and delivery charge
numbers), `calculateTotals` raises no error: absent arguments default to
the empty sequence and zero and the result agrees with the typed
calculator; a malformed item list such as `null`, however, is not
defaulted and throws. -/
theorem jsCalculateTotals_defaults (items : Option (List MenuItem)) (d c : Option ℚ) :
    jsCalculateTotals (encodeItems items) (encodeNum d) (encodeNum c)
      = .ok (JSVal.num (calculateTotals (items.getD []) (d.getD 0) (c.getD 0)).subtotal,
             JSVal.num (calculateTotals (items.getD []) (d.getD 0) (c.getD 0)).total) := by
  cases items <;> cases d <;> cases c <;>
    simp [jsCalculateTotals, encodeItems, encodeNum, jsReduceSumPrice, jsFoldSum_encoded,
      calculateTotals, jsAdd, jsSub, jsToNumber, jsFoldSum, Option.getD]

end Foodex
